import Mathlib

/-!
Verification development for the Smart_assistant repository.

The Python sources are shallowly embedded: the pure analysis pipeline
(safety validator, sandbox output collection, result processing, batch
orchestration, the in-memory session store and the WebSocket receive loop)
are translated into executable Lean definitions.  External collaborators
(the Docker daemon, the LLM provider, the wall clock and the stringified
messages of runtime exceptions) are supplied as explicit parameters, as the
repository treats them as out-of-process services.  Text decoding is
modelled on the ASCII plane and JSON numbers as integers; no claim below
depends on non-ASCII bytes or fractional numeric literals.
-/

namespace SmartAssistant

/-- Single-quote character, used when rendering Python `repr` of strings. -/
def sq : String := String.singleton (Char.ofNat 39)

/-- Python `needle in haystack` substring test. -/
def pyIn (needle haystack : String) : Bool :=
  (List.range (haystack.length + 1)).any fun i =>
    needle.data.isPrefixOf (haystack.data.drop i)

/-- Python `str.lower` restricted to the ASCII plane. -/
def pyLower (s : String) : String := String.mk (s.data.map Char.toLower)

/-- Python `s.endswith(suffix)`. -/
def pyEndsWith (s suffix : String) : Bool := suffix.data.isSuffixOf s.data

/-- Python `s.startswith(pat)`. -/
def pyStartsWith (s pat : String) : Bool := pat.data.isPrefixOf s.data

/-- Drop the first `n` characters of a string. -/
def pyDrop (s : String) (n : Nat) : String := String.mk (s.data.drop n)

/-- Python `name.split('.')[0]`: the text before the first dot. -/
def topModule (n : String) : String := String.mk (n.data.takeWhile fun c => c ≠ '.')

/-- One step of Python `str.replace`: non-overlapping, leftmost. -/
def replaceList (old new : List Char) : Nat → List Char → List Char
  | 0, cs => cs
  | _ + 1, [] => []
  | f + 1, c :: rest =>
    if old.isPrefixOf (c :: rest) then
      new ++ replaceList old new f ((c :: rest).drop old.length)
    else c :: replaceList old new f rest

/-- Python `s.replace(old, new)` (for the non-empty patterns used by the
repository). -/
def pyReplace (s old new : String) : String :=
  String.mk (replaceList old.data new.data s.data.length s.data)

/-- Python `str.strip()` on the ASCII plane. -/
def pyStrip (s : String) : String :=
  String.mk (((s.data.dropWhile Char.isWhitespace).reverse.dropWhile Char.isWhitespace).reverse)

/-- Python `repr` of a list of strings, e.g. `['a', 'b']`. -/
def pyReprList (xs : List String) : String :=
  "[" ++ String.intercalate ", " (xs.map fun x => sq ++ x ++ sq) ++ "]"

/-- JSON values as produced by Python `json.load`/`json.loads`
(numbers modelled as integers). -/
inductive Json where
  | null
  | bool (b : Bool)
  | num (n : Int)
  | str (s : String)
  | arr (elems : List Json)
  | obj (fields : List (String × Json))

/-- Python dict lookup on the field list of a JSON object (when JSON is
decoded to a dict, a repeated key keeps the last occurrence). -/
def dictGet (fields : List (String × Json)) (k : String) : Option Json :=
  fields.foldl (fun acc kv => if kv.1 = k then some kv.2 else acc) none

/-- Python dict assignment `d[k] = v` on a field list: overwrite in place
if the key exists, else append. -/
def dictSet (fields : List (String × Json)) (k : String) (v : Json) :
    List (String × Json) :=
  if (fields.lookup k).isSome then
    fields.map fun kv => if kv.1 = k then (kv.1, v) else kv
  else fields ++ [(k, v)]

/-- JSON whitespace skipping. -/
def skipWs (cs : List Char) : List Char :=
  cs.dropWhile fun c => c = ' ' || c = Char.ofNat 10 || c = Char.ofNat 9 || c = Char.ofNat 13

/-- Scan a JSON string body up to the closing quote (escape sequences are
not modelled; the repository artifacts under proof contain none). -/
def scanStr : List Char → Option (String × List Char)
  | [] => none
  | c :: rest =>
    if c = '"' then some ("", rest)
    else if c = Char.ofNat 92 then none
    else match scanStr rest with
      | some (s, r) => some (String.singleton c ++ s, r)
      | none => none

/-- Scan a (possibly negative) integer literal. -/
def scanInt (cs : List Char) : Option (Int × List Char) :=
  let (neg, cs') := match cs with
    | c :: rest => if c = '-' then (true, rest) else (false, cs)
    | [] => (false, cs)
  let digits := cs'.takeWhile Char.isDigit
  if digits.isEmpty then none
  else
    let n : Nat := digits.foldl (fun acc c => acc * 10 + (c.toNat - 48)) 0
    some (if neg then -(n : Int) else (n : Int), cs'.drop digits.length)

/-- Mode of the fuelled JSON scanner: a single value, the items of an
array, or the fields of an object. -/
inductive PMode where
  | one
  | arrItems
  | objFields

/-- Result of the fuelled JSON scanner. -/
inductive PRes where
  | one (j : Json)
  | vals (l : List Json)
  | fields (l : List (String × Json))

/-- Fuelled recursive-descent scanner for JSON; the fuel strictly exceeds
the remaining input length at every call, so the cutoff is unreachable. -/
def pj : Nat → PMode → List Char → Option (PRes × List Char)
  | 0, _, _ => none
  | f + 1, .one, cs =>
    match skipWs cs with
    | [] => none
    | c :: rest =>
      if c = '"' then
        match scanStr rest with
        | some (s, r) => some (.one (.str s), r)
        | none => none
      else if c = Char.ofNat 91 then
        match pj f .arrItems rest with
        | some (.vals l, r) => some (.one (.arr l), r)
        | _ => none
      else if c = Char.ofNat 123 then
        match pj f .objFields rest with
        | some (.fields l, r) => some (.one (.obj l), r)
        | _ => none
      else if ['t', 'r', 'u', 'e'].isPrefixOf (c :: rest) then
        some (.one (.bool true), (c :: rest).drop 4)
      else if ['f', 'a', 'l', 's', 'e'].isPrefixOf (c :: rest) then
        some (.one (.bool false), (c :: rest).drop 5)
      else if ['n', 'u', 'l', 'l'].isPrefixOf (c :: rest) then
        some (.one .null, (c :: rest).drop 4)
      else
        match scanInt (c :: rest) with
        | some (n, r) => some (.one (.num n), r)
        | none => none
  | f + 1, .arrItems, cs =>
    match skipWs cs with
    | [] => none
    | c :: rest =>
      if c = Char.ofNat 93 then some (.vals [], rest)
      else
        match pj f .one (c :: rest) with
        | some (.one v, r) =>
          (match skipWs r with
           | c2 :: r2 =>
             if c2 = ',' then
               match pj f .arrItems r2 with
               | some (.vals l, r3) => some (.vals (v :: l), r3)
               | _ => none
             else if c2 = Char.ofNat 93 then some (.vals [v], r2)
             else none
           | [] => none)
        | _ => none
  | f + 1, .objFields, cs =>
    match skipWs cs with
    | [] => none
    | c :: rest =>
      if c = Char.ofNat 125 then some (.fields [], rest)
      else if c = '"' then
        match scanStr rest with
        | some (k, r) =>
          (match skipWs r with
           | c2 :: r2 =>
             if c2 = ':' then
               match pj f .one r2 with
               | some (.one v, r3) =>
                 (match skipWs r3 with
                  | c3 :: r4 =>
                    if c3 = ',' then
                      match pj f .objFields r4 with
                      | some (.fields l, r5) => some (.fields ((k, v) :: l), r5)
                      | _ => none
                    else if c3 = Char.ofNat 125 then some (.fields [(k, v)], r4)
                    else none
                  | [] => none)
               | _ => none
             else none
           | [] => none)
        | none => none
      else none

/-- Model of Python `json.loads` on a string: parse a single JSON document
and require that only whitespace remains. -/
def jsonParse (s : String) : Option Json :=
  match pj (2 * s.length + 4) .one s.data with
  | some (.one j, rest) => if (skipWs rest).isEmpty then some j else none
  | _ => none

/-! ## Python AST fragment and `ast.walk`

`tools/analytics/safety_validator.py` analyses the `ast` of the candidate
program.  The fragment below covers the node kinds the validator inspects
(`Import`, `ImportFrom`, `Call`, `Name`, `Attribute`) plus literals;
checks match on exactly these kinds and ignore every other node, as the
Python code does. -/

mutual
/-- Python expression nodes. -/
inductive PyExpr where
  | name (id : String)
  | strLit (s : String)
  | attribute (value : PyExpr) (attr : String)
  | call (func : PyExpr) (args : PyArgs)
/-- Argument list of a `Call` node. -/
inductive PyArgs where
  | nil
  | cons (head : PyExpr) (tail : PyArgs)
end

/-- Python statement nodes (top-level module body). -/
inductive PyStmt where
  | imp (names : List String)
  | impFrom (module : Option String) (names : List String)
  | exprStmt (e : PyExpr)
  | assign (value : PyExpr)

mutual
/-- All nodes of an expression, the expression itself included
(the expression-level restriction of `ast.walk`). -/
def PyExpr.nodes : PyExpr → List PyExpr
  | .name i => [.name i]
  | .strLit s => [.strLit s]
  | .attribute v a => .attribute v a :: v.nodes
  | .call f args => .call f args :: (f.nodes ++ args.nodesL)
/-- Nodes of every expression of an argument list. -/
def PyArgs.nodesL : PyArgs → List PyExpr
  | .nil => []
  | .cons h t => h.nodes ++ t.nodesL
end

/-- Expression nodes reachable from one statement. -/
def stmtExprNodes : PyStmt → List PyExpr
  | .imp _ => []
  | .impFrom _ _ => []
  | .exprStmt e => e.nodes
  | .assign v => v.nodes

/-- All expression nodes of a module, as `ast.walk` yields them (the
traversal order differs from CPython's breadth-first order; every check
below is order-insensitive). -/
def walkModule (m : List PyStmt) : List PyExpr :=
  (m.map stmtExprNodes).flatten

/-- The callee's final identifier of a `Call` node: `f(...)` gives `f`,
`x.f(...)` gives `f`, any other callee shape gives none
(`_check_functions` lines 151-158). -/
def calleeName : PyExpr → Option String
  | .call (.name id) _ => some id
  | .call (.attribute _ a) _ => some a
  | _ => none

/-! ## SafetyValidator (`tools/analytics/safety_validator.py`) -/

/-- `SafetyValidator.BLOCKED_IMPORTS`. -/
def BLOCKED_IMPORTS : List String :=
  ["os", "subprocess", "sys", "socket", "http", "urllib",
   "requests", "shutil", "tempfile", "multiprocessing",
   "threading", "ctypes", "importlib", "__builtin__",
   "__import__", "pty", "telnetlib", "ftplib", "smtplib"]

/-- `SafetyValidator.BLOCKED_FUNCTIONS`. -/
def BLOCKED_FUNCTIONS : List String :=
  ["eval", "exec", "compile", "__import__", "open",
   "input", "raw_input", "execfile", "file", "reload"]

/-- A regex of `SUSPICIOUS_PATTERNS`: either the dunder pattern
`__\w+__` or a pattern that matches a fixed literal text. -/
inductive RePat where
  | dunder
  | lit (text : String)

/-- `SafetyValidator.SUSPICIOUS_PATTERNS`: each entry pairs the matching
semantics with the regex source text used in the warning message. -/
def SUSPICIOUS_PATTERNS : List (RePat × String) :=
  [(.dunder, "__\\w+__"),
   (.lit "getattr", "getattr"),
   (.lit "setattr", "setattr"),
   (.lit "delattr", "delattr"),
   (.lit "globals(", "globals\\("),
   (.lit "locals(", "locals\\("),
   (.lit "vars(", "vars\\("),
   (.lit "dir(", "dir\\(")]

/-- Python regex `\w` on the ASCII plane. -/
def isWordChar (c : Char) : Bool := c.isAlphanum || c = Char.ofNat 95

/-- `re.findall` of a fixed literal pattern: leftmost, non-overlapping
occurrences.  Fuel is the input length; every step consumes at least one
character, so the cutoff is unreachable. -/
def litScan (pat : List Char) : Nat → List Char → List String
  | 0, _ => []
  | _ + 1, [] => []
  | f + 1, c :: rest =>
    if pat.isPrefixOf (c :: rest) then
      String.mk pat :: litScan pat f ((c :: rest).drop pat.length)
    else litScan pat f rest

/-- Try to match the regex `__\w+__` at the head of the input, with the
greedy-then-backtrack semantics of the Python engine: after the leading
`__`, `\w+` takes the longest extent that still leaves a final `__`.
Returns the matched text and the rest of the input. -/
def dunderAt (s : List Char) : Option (List Char × List Char) :=
  match s with
  | c1 :: c2 :: t =>
    if c1 = Char.ofNat 95 && c2 = Char.ofNat 95 then
      let run := t.takeWhile isWordChar
      match (List.range run.length).reverse.find? (fun k =>
          decide (1 ≤ k) && decide (k + 2 ≤ run.length) &&
          run.getD k ' ' = Char.ofNat 95 && run.getD (k + 1) ' ' = Char.ofNat 95) with
      | some k => some (c1 :: c2 :: run.take (k + 2), s.drop (k + 4))
      | none => none
    else none
  | _ => none

/-- `re.findall` of `__\w+__`: leftmost, non-overlapping matches. -/
def dunderScan : Nat → List Char → List String
  | 0, _ => []
  | _ + 1, [] => []
  | f + 1, c :: rest =>
    match dunderAt (c :: rest) with
    | some (m, remaining) => String.mk m :: dunderScan f remaining
    | none => dunderScan f rest

/-- `re.findall(pattern, code)` for the two pattern shapes above. -/
def findall (p : RePat) (code : String) : List String :=
  match p with
  | .dunder => dunderScan code.data.length code.data
  | .lit text => litScan text.data code.data.length code.data

/-- `_check_imports`: one violation per blocked top-level module name in
`import`/`from ... import` statements. -/
def check_imports (m : List PyStmt) : List String :=
  (m.map fun st =>
    match st with
    | .imp names => names.filterMap fun n =>
        if BLOCKED_IMPORTS.contains (topModule n) then
          some ("Blocked import: " ++ n)
        else none
    | .impFrom module _ =>
      (match module with
       | some mod =>
         if mod ≠ "" && BLOCKED_IMPORTS.contains (topModule mod) then
           ["Blocked import from: " ++ mod]
         else []
       | none => [])
    | _ => []).flatten

/-- `_check_functions`: one violation per call whose callee's final
identifier is in `BLOCKED_FUNCTIONS`. -/
def check_functions (m : List PyStmt) : List String :=
  (walkModule m).filterMap fun node =>
    match calleeName node with
    | some f =>
      if BLOCKED_FUNCTIONS.contains f then
        some ("Blocked function call: " ++ f ++ "()")
      else none
    | none => none

/-- `_check_file_operations`: never any violation; a warning per attribute
call with a file-operation suffix. -/
def check_file_operations (m : List PyStmt) : List String × List String :=
  ([],
   (walkModule m).filterMap fun node =>
     match node with
     | .call (.attribute _ a) _ =>
       if ["open", "write_text", "write_bytes", "read_text", "read_bytes"].contains a then
         some ("File operation: Path." ++ a ++ "()")
       else none
     | _ => none)

/-- The `safe_patterns` subset filtered out of dunder matches. -/
def safe_patterns : List String := ["__init__", "__main__", "__name__", "__file__"]

/-- `_check_suspicious_patterns`: a warning per pattern that has matches
surviving the safe-pattern filter, quoting the first three matches. -/
def check_suspicious_patterns (code : String) : List String :=
  SUSPICIOUS_PATTERNS.filterMap fun pr =>
    let ms := findall pr.1 code
    if ms.isEmpty then none
    else
      let dangerous := ms.filter fun x => !(safe_patterns.contains x)
      if dangerous.isEmpty then none
      else some ("Suspicious pattern: " ++ pr.2 ++ " (matches: " ++
                 pyReprList (dangerous.take 3) ++ ")")

/-- `critical_keywords` of `_assess_risk`. -/
def critical_keywords : List String := ["exec", "eval", "import os", "subprocess"]

/-- `_assess_risk`. -/
def assess_risk (violations warnings : List String) : String :=
  if violations.isEmpty && warnings.isEmpty then "safe"
  else if !violations.isEmpty then
    if violations.any (fun v => critical_keywords.any fun kw => pyIn kw (pyLower v)) then
      "critical"
    else "high"
  else if warnings.length > 5 then "medium"
  else if warnings.length > 0 then "low"
  else "safe"

/-- `ValidationResult` dataclass. -/
structure ValidationResult where
  is_safe : Bool
  violations : List String
  warnings : List String
  risk_level : String
  deriving DecidableEq, Repr

/-- A source string together with the outcome of `ast.parse` on it; the
CPython parser itself is outside the embedding, so a source is carried
with its parse result. -/
structure PySource where
  text : String
  parsed : Except String (List PyStmt)

/-- `SafetyValidator.validate` (`strict_mode` is stored but never read by
any check, so it does not appear). -/
def validate (src : PySource) : ValidationResult :=
  match src.parsed with
  | .error e =>
    { is_safe := false, violations := ["Syntax error: " ++ e],
      warnings := [], risk_level := "critical" }
  | .ok tree =>
    let violations :=
      check_imports tree ++ check_functions tree ++ (check_file_operations tree).1
    let warnings :=
      (check_file_operations tree).2 ++ check_suspicious_patterns src.text
    let risk_level := assess_risk violations warnings
    { is_safe := ["safe", "low"].contains risk_level,
      violations := violations, warnings := warnings, risk_level := risk_level }

/-! ## Sandbox executor (`tools/analytics/sandbox/executor.py`)

The Docker daemon is an external collaborator: starting the container and
waiting on it are supplied as outcome parameters (`StartOutcome`), carrying
the stringified message of any exception the client library raised.  File
contents under `outputs/` are byte lists; text decoding is modelled on the
ASCII plane. -/

/-- A Python value held in the `outputs` dict of an `ExecutionResult`:
parsed JSON for `.json` files, raw bytes for images and undecodable files,
text otherwise. -/
inductive OutVal where
  | json (j : Json)
  | bytes (b : List Nat)
  | str (s : String)

/-- Python truthiness of a JSON-decoded value. -/
def jsonTruthy : Json → Bool
  | .null => false
  | .bool b => b
  | .num n => n ≠ 0
  | .str s => s ≠ ""
  | .arr l => !l.isEmpty
  | .obj f => !f.isEmpty

/-- Python truthiness of an output value. -/
def truthy : OutVal → Bool
  | .json j => jsonTruthy j
  | .bytes b => !b.isEmpty
  | .str s => s ≠ ""

/-- A raised Python exception: its class name and its `str(e)` text. -/
structure PyErr where
  kind : String
  msg : String

/-- Text-mode decoding of a byte file, modelled on the ASCII plane: any
byte above 0x7f is treated as undecodable. -/
def utf8Decode (bs : List Nat) : Option String :=
  if bs.all (fun b => b < 128) then some (String.mk (bs.map Char.ofNat)) else none

/-- Open a file in text mode and read it; raises `UnicodeDecodeError` on
undecodable bytes. -/
def textRead (content : List Nat) : Except PyErr String :=
  match utf8Decode content with
  | some s => .ok s
  | none => .error { kind := "UnicodeDecodeError", msg := "invalid start byte" }

/-- `json.load` on an open file: decode the file, then parse; raises on
either failure. -/
def jsonLoadFile (content : List Nat) : Except PyErr Json :=
  match utf8Decode content with
  | none => .error { kind := "UnicodeDecodeError", msg := "invalid start byte" }
  | some s =>
    match jsonParse s with
    | some j => .ok j
    | none => .error { kind := "JSONDecodeError", msg := "Expecting value" }

/-- Read one regular file of `outputs/` according to its extension
(`_collect_outputs` lines 268-292).  Only the generic-text branch catches
`UnicodeDecodeError`; every other branch lets exceptions escape. -/
def readOutputFile (filename : String) (content : List Nat) : Except PyErr OutVal :=
  if pyEndsWith filename ".json" then
    match jsonLoadFile content with
    | .ok j => .ok (.json j)
    | .error e => .error e
  else if pyEndsWith filename ".png" || pyEndsWith filename ".jpg" || pyEndsWith filename ".jpeg" then
    .ok (.bytes content)
  else if pyEndsWith filename ".html" then
    match textRead content with
    | .ok s => .ok (.str s)
    | .error e => .error e
  else if pyEndsWith filename ".csv" then
    match textRead content with
    | .ok s => .ok (.str s)
    | .error e => .error e
  else
    match textRead content with
    | .ok s => .ok (.str s)
    | .error _ => .ok (.bytes content)

/-- `_collect_outputs`: read every regular file of `outputs/`, in
directory order; the first escaping exception aborts the collection. -/
def collectOutputs : List (String × List Nat) → Except PyErr (List (String × OutVal))
  | [] => .ok []
  | (filename, content) :: rest =>
    match readOutputFile filename content with
    | .error e => .error e
    | .ok v =>
      match collectOutputs rest with
      | .error e => .error e
      | .ok others => .ok ((filename, v) :: others)

/-- `ExecutionResult` dataclass.  `metadata`, when present, holds the
execution id and the `StatusCode` entry of the wait-result dict;
`execution_time` is the measured wall time, threaded as a parameter. -/
structure ExecutionResult where
  success : Bool
  stdout : String
  stderr : String
  outputs : List (String × OutVal)
  execution_time : Nat
  error : Option String := none
  metadata : Option (String × Option Int) := none

/-- Outcome of `container.wait(timeout=...)`: a wait-result dict with an
optional `StatusCode`, or a raised exception (deadline expiry included)
carrying its `str(e)` text. -/
inductive WaitOutcome where
  | completed (statusCode : Option Int)
  | raised (msg : String)

/-- Outcome of `docker_client.containers.run(...)`: a detached container
handle plus the subsequent wait outcome and combined log stream, or a
raised exception. -/
inductive StartOutcome where
  | started (wo : WaitOutcome) (logs : String)
  | startRaised (msg : String)

/-- Observable container-lifecycle action issued by `_run_container`. -/
inductive RunEvent where
  | stop (graceSeconds : Nat)
  | removeForce
  deriving DecidableEq, Repr

/-- `SandboxExecutor._run_container`, instrumented with the list of
container-lifecycle actions it issues.  On a wait exception the container
is stopped with a 5-second grace and the exception re-raised into the
outer handler; the `finally` block force-removes the container whenever
the handle exists.  Log splitting puts the combined stream in `stdout`. -/
def run_container (so : StartOutcome) (files : List (String × List Nat))
    (execution_id : String) (elapsed : Nat) : ExecutionResult × List RunEvent :=
  match so with
  | .startRaised msg =>
    ({ success := false, stdout := "", stderr := msg, outputs := [],
       execution_time := elapsed, error := some msg }, [])
  | .started wo logs =>
    match wo with
    | .raised msg =>
      ({ success := false, stdout := "", stderr := msg, outputs := [],
         execution_time := elapsed, error := some msg },
       [.stop 5, .removeForce])
    | .completed statusCode =>
      match collectOutputs files with
      | .error e =>
        ({ success := false, stdout := "", stderr := e.msg, outputs := [],
           execution_time := elapsed, error := some e.msg }, [.removeForce])
      | .ok outs =>
        ({ success := statusCode.getD 1 == 0, stdout := logs, stderr := "",
           outputs := outs, execution_time := elapsed,
           metadata := some (execution_id, statusCode) }, [.removeForce])

/-! ## Result processor (`tools/analytics/result_processor.py`) -/

/-- A visualization entry built by `_extract_visualizations`. -/
structure Viz where
  vtype : String
  format : String
  filename : String
  data : OutVal
  title : String

/-- `AnalysisResult` dataclass.  `metrics` is the Python object built by
`_extract_metrics` (a dict unless a non-dict `metrics.json` replaced it);
`insights` is whatever Python value ends up in the field. -/
structure AnalysisResult where
  success : Bool
  query : String
  insights : OutVal
  visualizations : List Viz
  metrics : Json
  data_outputs : List (String × String × OutVal)
  execution_time : Nat
  error : Option String := none
  raw_output : Option String := none

/-- Standard base64 alphabet. -/
def b64Alphabet : List Char :=
  "ABCDEFGHIJKLMNOPQRSTUVWXYZabcdefghijklmnopqrstuvwxyz0123456789+/".data

/-- Character of the base64 alphabet at an index below 64. -/
def b64Char (n : Nat) : Char := b64Alphabet.getD n 'A'

/-- `base64.b64encode` of a byte list, rendered as a string. -/
def base64Encode : List Nat → String
  | [] => ""
  | [a] => String.mk [b64Char (a / 4), b64Char (a % 4 * 16), '=', '=']
  | [a, b] => String.mk [b64Char (a / 4), b64Char (a % 4 * 16 + b / 16), b64Char (b % 16 * 4), '=']
  | a :: b :: c :: rest =>
    String.mk [b64Char (a / 4), b64Char (a % 4 * 16 + b / 16),
               b64Char (b % 16 * 4 + c / 64), b64Char (c % 64)] ++ base64Encode rest

/-- `name.rsplit('.', 1)[0]`: drop everything from the last dot on, when
a dot exists. -/
def rsplitExt (name : String) : String :=
  if name.data.contains '.' then
    String.mk ((name.data.reverse.dropWhile fun c => c ≠ '.').drop 1).reverse
  else name

/-- Python `str.title` on the ASCII plane: an alphabetic character that
follows a non-alphabetic one is uppercased, other alphabetic characters
are lowercased. -/
def pyTitle (s : String) : String :=
  String.mk (s.data.foldl (fun acc c =>
    if c.isAlpha then
      (acc.1 ++ [if acc.2 then c.toLower else c.toUpper], true)
    else (acc.1 ++ [c], false)) (([] : List Char), false)).1

/-- `ResultProcessor._filename_to_title`: drop the extension, strip each
of the plot-name markers in turn, then underscores to spaces and title
case. -/
def filename_to_title (filename : String) : String :=
  let name := rsplitExt filename
  let name := ["plot_", "chart_", "fig_", "graph_"].foldl
    (fun n p => if pyStartsWith n p then pyDrop n p.length else n) name
  pyTitle (pyReplace name "_" " ")

/-- `ResultProcessor._extract_visualizations`: PNG files become image
entries (bytes base64-encoded), HTML files become html entries; note that
`.jpg`/`.jpeg` files are not picked up here. -/
def extract_visualizations (outputs : List (String × OutVal)) : List Viz :=
  outputs.filterMap fun fc =>
    if pyEndsWith fc.1 ".png" then
      some { vtype := "image", format := "png", filename := fc.1,
             data := match fc.2 with
               | .bytes b => .str (base64Encode b)
               | other => other,
             title := filename_to_title fc.1 }
    else if pyEndsWith fc.1 ".html" then
      some { vtype := "html", format := "html", filename := fc.1,
             data := fc.2, title := filename_to_title fc.1 }
    else none

/-- `json.loads` applied to a Python value already held in `outputs`: a
string parses, a non-string JSON-decoded object raises `TypeError`, bytes
decode and parse. -/
def jsonLoadsVal : OutVal → Except PyErr Json
  | .str s =>
    (match jsonParse s with
     | some j => .ok j
     | none => .error { kind := "JSONDecodeError", msg := "Expecting value" })
  | .json (.str s) =>
    (match jsonParse s with
     | some j => .ok j
     | none => .error { kind := "JSONDecodeError", msg := "Expecting value" })
  | .json _ => .error { kind := "TypeError", msg := "the JSON object must be str, bytes or bytearray" }
  | .bytes b =>
    match utf8Decode b with
    | none => .error { kind := "UnicodeDecodeError", msg := "invalid start byte" }
    | some s =>
      match jsonParse s with
      | some j => .ok j
      | none => .error { kind := "JSONDecodeError", msg := "Expecting value" }

/-- `isinstance(v, dict)` for a value held in `outputs`. -/
def isDict : OutVal → Bool
  | .json (.obj _) => true
  | _ => false

/-- The JSON object behind a value satisfying `isDict`. -/
def dictOf : OutVal → Json
  | .json j => j
  | _ => .null

/-- The loop of `_extract_metrics` over the non-`metrics.json` JSON files:
`metrics[stem] = content-or-loads(content)`, skipping `JSONDecodeError`;
indexing a non-dict `metrics` raises `TypeError`. -/
def foldJsonFiles : Json → List (String × OutVal) → Except PyErr Json
  | metrics, [] => .ok metrics
  | metrics, (filename, content) :: rest =>
    if pyEndsWith filename ".json" && filename ≠ "metrics.json" then
      match (if isDict content then .ok (dictOf content) else jsonLoadsVal content :
             Except PyErr Json) with
      | .ok v =>
        (match metrics with
         | .obj fs => foldJsonFiles (.obj (dictSet fs (pyReplace filename ".json" "") v)) rest
         | _ => .error { kind := "TypeError", msg := "object does not support item assignment" })
      | .error e =>
        if e.kind = "JSONDecodeError" then foldJsonFiles metrics rest else .error e
    else foldJsonFiles metrics rest

/-- `ResultProcessor._extract_metrics`. -/
def extract_metrics (outputs : List (String × OutVal)) : Except PyErr Json :=
  match (match outputs.lookup "metrics.json" with
         | none => .ok (.obj [])
         | some v =>
           if isDict v then .ok (dictOf v)
           else
             match jsonLoadsVal v with
             | .ok j => .ok j
             | .error e => if e.kind = "JSONDecodeError" then .ok (.obj []) else .error e :
         Except PyErr Json) with
  | .error e => .error e
  | .ok base => foldJsonFiles base outputs

/-- `ResultProcessor._extract_data_outputs`. -/
def extract_data_outputs (outputs : List (String × OutVal)) :
    List (String × String × OutVal) :=
  outputs.filterMap fun fc =>
    if pyEndsWith fc.1 ".csv" then some (fc.1, ("csv", fc.2))
    else if pyEndsWith fc.1 ".txt" && fc.1 ≠ "insights.txt" then
      some (fc.1, ("text", fc.2))
    else none

/-- `ResultProcessor._extract_insights`: the `insights.txt` value when the
key exists (its content may be empty), else the placeholder. -/
def extract_insights (outputs : List (String × OutVal)) : OutVal :=
  match outputs.lookup "insights.txt" with
  | some v => v
  | none => .str "No insights generated. Check the visualizations and metrics for analysis results."

/-- Python `error or 'Unknown error'`. -/
def pyOrUnknown : Option String → String
  | some e => if e ≠ "" then e else "Unknown error"
  | none => "Unknown error"

/-- `ResultProcessor.process`.  The failure short-circuit copies the
execution error; on success the extractors run (an exception from
`_extract_metrics` escapes to the caller) and the `insights` argument is
preferred only when truthy, falling back to `_extract_insights`. -/
def process (query : String) (execution_result : ExecutionResult)
    (insights : Option OutVal) : Except PyErr AnalysisResult :=
  if !execution_result.success then
    .ok { success := false, query := query,
          insights := .str ("Analysis failed: " ++ pyOrUnknown execution_result.error),
          visualizations := [], metrics := .obj [], data_outputs := [],
          execution_time := execution_result.execution_time,
          error := execution_result.error,
          raw_output := some execution_result.stderr }
  else
    match extract_metrics execution_result.outputs with
    | .error e => .error e
    | .ok metrics =>
      let final_insights :=
        match insights with
        | some v => if truthy v then v else extract_insights execution_result.outputs
        | none => extract_insights execution_result.outputs
      .ok { success := true, query := query, insights := final_insights,
            visualizations := extract_visualizations execution_result.outputs,
            metrics := metrics,
            data_outputs := extract_data_outputs execution_result.outputs,
            execution_time := execution_result.execution_time,
            raw_output := some execution_result.stdout }

/-! ## Code generator (`tools/analytics/code_generator.py`)

The Anthropic client is an external collaborator: the summarization call
is a parameter carrying either the response text or a raised exception.
The prompt strings fed to it do not influence the embedded control flow
and are not modelled. -/

/-- `CodeGenerator.generate_insights`: return the `insights.txt` content
when truthy; otherwise the (stripped) LLM summary, with a static fallback
when the call raises. -/
def generate_insights (outputs : List (String × OutVal))
    (llm : Except String String) : OutVal :=
  let insights_file := (outputs.lookup "insights.txt").getD (.str "")
  if truthy insights_file then insights_file
  else
    match llm with
    | .ok text => .str (pyStrip text)
    | .error _ => .str "Could not generate insights from the analysis results."

/-! ## Python analysis agent (`agents/python_analysis_agent.py`) -/

/-- The mojibake bullet prefix used in the validation-failure insights
(the agent source holds these literal bytes). -/
def bulletMoji : String := "â€¢ "

/-- `PythonAnalysisAgent.analyze`, with code generation abstracted: `src`
is the generated program (text plus parse outcome), `execution_result` the
outcome the sandbox executor would produce, `llm` the summarization call.
The Boolean records whether the sandbox execution step was reached; the
validation-failure branch returns before it. -/
def analyze (query : String) (src : PySource) (execution_result : ExecutionResult)
    (llm : Except String String) : AnalysisResult × Bool :=
  let validation_result := validate src
  if !validation_result.is_safe then
    ({ success := false, query := query,
       insights := .str ("Code validation failed. Security violations detected:\n" ++
         String.intercalate "\n" (validation_result.violations.map fun v => bulletMoji ++ v)),
       visualizations := [], metrics := .obj [], data_outputs := [],
       execution_time := 0, error := some "Code safety validation failed" }, false)
  else
    let insights : Option OutVal :=
      if execution_result.success then
        some (generate_insights execution_result.outputs llm)
      else none
    match process query execution_result insights with
    | .ok r => (r, true)
    | .error e =>
      ({ success := false, query := query,
         insights := .str ("Analysis failed with error: " ++ e.msg),
         visualizations := [], metrics := .obj [], data_outputs := [],
         execution_time := 0, error := some e.msg }, true)

/-- The error-to-result conversion of `batch_analyze`: a raised exception
becomes a failure `AnalysisResult` at the query's own position. -/
def settleOutcome (query : String) : Except String AnalysisResult → AnalysisResult
  | .ok r => r
  | .error e =>
    { success := false, query := query, insights := .str ("Error: " ++ e),
      visualizations := [], metrics := .obj [], data_outputs := [],
      execution_time := 0, error := some e }

/-- `PythonAnalysisAgent.batch_analyze`: `asyncio.gather` with
`return_exceptions=True` yields one outcome per query in input order (the
semaphore bounds concurrency without affecting the value); each outcome is
then settled in place. -/
def batch_analyze (queries : List String)
    (runOne : String → Except String AnalysisResult) : List AnalysisResult :=
  queries.map fun q => settleOutcome q (runOne q)

/-! ## Backend session store and transport (`backend/main.py`)

`chat_sessions` is a dict from session id to message list, modelled as an
association list in insertion order.  `datetime.utcnow()` is modelled by a
monotone counter threaded through the loop; the `str(e)` text of an
exception caught by the WebSocket handler comes from the runtime and is
passed in as a parameter. -/

/-- One entry of a session's message list.  `content` is the Python value
stored (the raw `message_data.get("message", "")` result for user turns). -/
structure Msg where
  role : String
  content : Json
  timestamp : Nat

/-- The `chat_sessions` dict. -/
abbrev Store := List (String × List Msg)

/-- `process_with_agent`: the mock routing over lowercased keywords. -/
def process_with_agent (message : String) : String :=
  if pyIn "portfolio" (pyLower message) then
    "I can help you analyze your portfolio. The system currently shows you have 3 active portfolios with a total value of $150,000. Would you like me to show you detailed performance metrics?"
  else if pyIn "return" (pyLower message) then
    "Based on your portfolio data, your year-to-date return is 12.5%, outperforming the S&P 500 by 2.3%. Would you like me to break this down by asset class?"
  else if pyIn "risk" (pyLower message) then
    "Your portfolio has a beta of 0.95 and a Sharpe ratio of 1.8, indicating good risk-adjusted returns. The current allocation is 60% stocks, 30% bonds, and 10% cash."
  else
    "I understand you" ++ sq ++ "re asking about: " ++ sq ++ message ++ sq ++
    ". I" ++ sq ++ "m a financial insights agent that can help you with portfolio analysis, performance metrics, risk assessment, and market comparisons. What would you like to know?"

/-- Append a message to an existing session (dict update keeps the entry
in place). -/
def storeAppend (store : Store) (sid : String) (m : Msg) : Store :=
  store.map fun kv => if kv.1 = sid then (kv.1, kv.2 ++ [m]) else kv

/-- The `if session_id not in chat_sessions: chat_sessions[session_id] = []`
initialization performed when a WebSocket connection is accepted. -/
def sessionInit (store : Store) (sid : String) : Store :=
  if (store.lookup sid).isSome then store else store ++ [(sid, [])]

/-- An inbound event on the WebSocket: a received text frame, or the
peer-initiated close (surfacing as `WebSocketDisconnect`). -/
inductive InFrame where
  | text (s : String)
  | disconnect

/-- An outbound frame sent by the server: a `type:"message"` frame with
its timestamp, or a `type:"error"` frame carrying `str(e)`. -/
inductive OutFrame where
  | message (content : String) (ts : Nat)
  | err (content : String)
  deriving DecidableEq, Repr

/-- The receive loop of `websocket_chat`.  The `try` wraps the whole
`while`: a `WebSocketDisconnect` ends the loop quietly; any other
exception (unparseable frame, `.get` on a non-dict, non-string message
reaching `message.lower()`) falls to the handler, which sends one error
frame and returns, ending the loop.  An exhausted event list models a
connection still waiting for its next frame. -/
def wsLoop (excText : String) (sid : String) :
    Store → Nat → List InFrame → Store × List OutFrame
  | store, _, [] => (store, [])
  | store, _, .disconnect :: _ => (store, [])
  | store, clock, .text s :: rest =>
    match jsonParse s with
    | none => (store, [.err excText])
    | some (.obj fields) =>
      let v := (dictGet fields "message").getD (.str "")
      let store1 := storeAppend store sid { role := "user", content := v, timestamp := clock }
      (match v with
       | .str m =>
         let response := process_with_agent m
         let store2 := storeAppend store1 sid
           { role := "assistant", content := .str response, timestamp := clock + 1 }
         let next := wsLoop excText sid store2 (clock + 3) rest
         (next.1, .message response (clock + 2) :: next.2)
       | _ => (store1, [.err excText]))
    | some _ => (store, [.err excText])

/-- `websocket_chat`: accept, initialize the session if absent, then run
the receive loop. -/
def websocket_chat (excText : String) (sid : String) (store : Store)
    (clock : Nat) (events : List InFrame) : Store × List OutFrame :=
  wsLoop excText sid (sessionInit store sid) clock events

/-- `SessionInfo` response model. -/
structure SessionInfo where
  session_id : String
  message_count : Nat
  created_at : Nat
  last_updated : Nat

/-- `GET /api/sessions`: summarize every session that has at least one
message, skipping empty ones. -/
def get_sessions (store : Store) : List SessionInfo :=
  store.filterMap fun kv =>
    match kv.2 with
    | [] => none
    | m :: rest =>
      some { session_id := kv.1, message_count := (m :: rest).length,
             created_at := m.timestamp,
             last_updated := ((m :: rest).getLastD m).timestamp }

/-- `GET /api/sessions/{id}`: the message list, or `none` for the 404
branch. -/
def get_session_history (store : Store) (sid : String) : Option (List Msg) :=
  store.lookup sid

/-! ## Shared lemmas about the validator -/

theorem contains_safe_low (r : String) :
    ((["safe", "low"] : List String).contains r = true) ↔ (r = "safe" ∨ r = "low") := by
  simp [List.contains, List.any, beq_iff_eq]

theorem contains_safe_low_false (r : String)
    (h : r = "critical" ∨ r = "high") :
    ((["safe", "low"] : List String).contains r) = false := by
  rcases h with h | h <;> subst h <;> rfl

theorem assess_risk_with_violations (v w : List String) (h : v ≠ []) :
    assess_risk v w = "critical" ∨ assess_risk v w = "high" := by
  have hv : v.isEmpty = false := by
    cases v with
    | nil => exact absurd rfl h
    | cons a l => rfl
  unfold assess_risk
  rw [hv]
  simp only [Bool.false_and, Bool.not_false, if_false, if_true]
  cases hc : v.any (fun s => critical_keywords.any fun kw => pyIn kw (pyLower s)) with
  | true => left; simp [hc]
  | false => right; simp [hc]

theorem assess_risk_critical (v w : List String) (x : String) (hx : x ∈ v)
    (hcrit : (critical_keywords.any fun kw => pyIn kw (pyLower x)) = true) :
    assess_risk v w = "critical" := by
  have hv : v.isEmpty = false := by
    cases v with
    | nil => cases hx
    | cons a l => rfl
  have hany : (v.any fun s => critical_keywords.any fun kw => pyIn kw (pyLower s)) = true :=
    List.any_eq_true.mpr ⟨x, hx, hcrit⟩
  unfold assess_risk
  rw [hv]
  simp [hany]

theorem blocked_call_mem (m : List PyStmt) (e : PyExpr) (f : String)
    (he : e ∈ walkModule m) (hc : calleeName e = some f)
    (hf : BLOCKED_FUNCTIONS.contains f = true) :
    ("Blocked function call: " ++ f ++ "()") ∈ check_functions m := by
  apply List.mem_filterMap.mpr
  refine ⟨e, he, ?_⟩
  have hf' : f ∈ BLOCKED_FUNCTIONS := by simpa using hf
  simp [hc, hf']

/-! ## C1 -/

/-- C1: for every syntactically valid source containing a call whose
callee's final identifier is `open` (bare `open(...)` or attribute
`x.open(...)`), `validate` returns a `ValidationResult` with
`is_safe = false` whose violations contain
`"Blocked function call: open()"`. -/
theorem C1_open_call_rejected (src : PySource) (m : List PyStmt) (e : PyExpr)
    (hp : src.parsed = .ok m) (he : e ∈ walkModule m)
    (hc : calleeName e = some "open") :
    (validate src).is_safe = false ∧
    "Blocked function call: open()" ∈ (validate src).violations := by
  obtain ⟨text, parsed⟩ := src
  simp only at hp
  subst hp
  have hmem : "Blocked function call: open()" ∈ check_functions m :=
    blocked_call_mem m e "open" he hc rfl
  have hviol : "Blocked function call: open()" ∈
      check_imports m ++ check_functions m ++ (check_file_operations m).1 :=
    List.mem_append.mpr (Or.inl (List.mem_append.mpr (Or.inr hmem)))
  refine ⟨?_, hviol⟩
  exact contains_safe_low_false _
    (assess_risk_with_violations _ _ (List.ne_nil_of_mem hviol))

/-- Source program `open("data.csv")`. -/
def c1_source : PySource :=
  { text := "open(\"data.csv\")",
    parsed := .ok [.exprStmt (.call (.name "open") (.cons (.strLit "data.csv") .nil))] }

/-- Witness for C1 at the concrete program `open("data.csv")`. -/
theorem C1_witness :
    (validate c1_source).is_safe = false ∧
    "Blocked function call: open()" ∈ (validate c1_source).violations :=
  C1_open_call_rejected c1_source _
    (.call (.name "open") (.cons (.strLit "data.csv") .nil))
    rfl (List.mem_cons_self _ _) rfl

/-! ## C2 -/

/-- The program `import os\nos.system("x")` with its parse tree. -/
def c2_source : PySource :=
  { text := "import os\nos.system(\"x\")",
    parsed := .ok [.imp ["os"],
      .exprStmt (.call (.attribute (.name "os") "system") (.cons (.strLit "x") .nil))] }

/-- C2 (code bug): on `import os\nos.system("x")` the validator does reject
with violation `"Blocked import: os"`, but the risk level is `"high"`,
not the specified `"critical"`: the critical keyword `'import os'` can
never occur in a violation, which always reads `"Blocked import: <name>"`
with a colon between `import` and the module name. -/
theorem C2_import_os_risk_is_high :
    validate c2_source =
      { is_safe := false, violations := ["Blocked import: os"],
        warnings := [], risk_level := "high" } := by decide

/-! ## C3 -/

/-- C3: for every validation outcome, `is_safe` holds exactly when the
risk level is `safe` or `low`, and a non-empty violations list forces risk
`high` or `critical` (syntactically invalid sources included, via the
parse-failure branch). -/
theorem C3_safety_invariant (src : PySource) :
    ((validate src).is_safe = true ↔
      ((validate src).risk_level = "safe" ∨ (validate src).risk_level = "low")) ∧
    ((validate src).violations ≠ [] →
      (validate src).risk_level = "high" ∨ (validate src).risk_level = "critical") := by
  obtain ⟨text, parsed⟩ := src
  cases parsed with
  | error e =>
    constructor
    · constructor
      · intro h; exact Bool.noConfusion (h : (false : Bool) = true)
      · rintro (h | h)
        · have h2 : ("critical" : String) = "safe" := h
          exact absurd h2 (by decide)
        · have h2 : ("critical" : String) = "low" := h
          exact absurd h2 (by decide)
    · intro _; right; rfl
  | ok tree =>
    constructor
    · exact contains_safe_low _
    · intro hne
      rcases assess_risk_with_violations _
        ((check_file_operations tree).2 ++ check_suspicious_patterns text) hne with h | h
      · right; exact h
      · left; exact h

/-- Source program `eval("1")`, which has a violation. -/
def c3_source : PySource :=
  { text := "eval(\"1\")",
    parsed := .ok [.exprStmt (.call (.name "eval") (.cons (.strLit "1") .nil))] }

/-- Witness for C3 at `eval("1")`: the violations list is non-empty and
the invariant instance follows from the theorem. -/
theorem C3_witness :
    ((validate c3_source).is_safe = true ↔
      ((validate c3_source).risk_level = "safe" ∨ (validate c3_source).risk_level = "low")) ∧
    ((validate c3_source).risk_level = "high" ∨ (validate c3_source).risk_level = "critical") :=
  ⟨(C3_safety_invariant c3_source).1, (C3_safety_invariant c3_source).2 (by decide)⟩

/-! ## C6 -/

theorem analyze_not_safe (query : String) (src : PySource) (er : ExecutionResult)
    (llm : Except String String) (h : (validate src).is_safe = false) :
    (analyze query src er llm).2 = false ∧
    (analyze query src er llm).1.success = false ∧
    (analyze query src er llm).1.error = some "Code safety validation failed" := by
  simp [analyze, h]

/-- C6: every syntactically valid source containing a call to `exec` is
rejected with `is_safe = false`, risk `"critical"` and violation
`"Blocked function call: exec()"`, and `analyze` then returns a failure
`AnalysisResult` without reaching the sandbox execution step (the Boolean
component of the instrumented `analyze` stays `false`). -/
theorem C6_exec_rejected (query : String) (src : PySource) (m : List PyStmt)
    (er : ExecutionResult) (llm : Except String String) (e : PyExpr)
    (hp : src.parsed = .ok m) (he : e ∈ walkModule m)
    (hc : calleeName e = some "exec") :
    (validate src).is_safe = false ∧
    (validate src).risk_level = "critical" ∧
    "Blocked function call: exec()" ∈ (validate src).violations ∧
    (analyze query src er llm).2 = false ∧
    (analyze query src er llm).1.success = false ∧
    (analyze query src er llm).1.error = some "Code safety validation failed" := by
  obtain ⟨text, parsed⟩ := src
  simp only at hp
  subst hp
  have hmem : "Blocked function call: exec()" ∈ check_functions m :=
    blocked_call_mem m e "exec" he hc rfl
  have hviol : "Blocked function call: exec()" ∈
      check_imports m ++ check_functions m ++ (check_file_operations m).1 :=
    List.mem_append.mpr (Or.inl (List.mem_append.mpr (Or.inr hmem)))
  have hcrit : (validate ⟨text, .ok m⟩).risk_level = "critical" :=
    assess_risk_critical _ _ "Blocked function call: exec()" hviol (by decide)
  have hsafe : (validate ⟨text, .ok m⟩).is_safe = false := by
    show (["safe", "low"].contains (validate ⟨text, .ok m⟩).risk_level) = false
    rw [hcrit]
    rfl
  obtain ⟨h1, h2, h3⟩ := analyze_not_safe query ⟨text, .ok m⟩ er llm hsafe
  exact ⟨hsafe, hcrit, hviol, h1, h2, h3⟩

/-- Source program `exec("x")`. -/
def c6_source : PySource :=
  { text := "exec(\"x\")",
    parsed := .ok [.exprStmt (.call (.name "exec") (.cons (.strLit "x") .nil))] }

/-- A placeholder execution outcome for the C6 witness (never consulted,
as the claim asserts). -/
def c6_er : ExecutionResult :=
  { success := false, stdout := "", stderr := "", outputs := [], execution_time := 0 }

/-- Witness for C6 at the concrete program `exec("x")`. -/
theorem C6_witness :
    (validate c6_source).risk_level = "critical" ∧
    (analyze "q" c6_source c6_er (.ok "s")).2 = false ∧
    (analyze "q" c6_source c6_er (.ok "s")).1.success = false :=
  ⟨(C6_exec_rejected "q" c6_source _ c6_er (.ok "s")
      (.call (.name "exec") (.cons (.strLit "x") .nil))
      rfl (List.mem_cons_self _ _) rfl).2.1,
   (C6_exec_rejected "q" c6_source _ c6_er (.ok "s")
      (.call (.name "exec") (.cons (.strLit "x") .nil))
      rfl (List.mem_cons_self _ _) rfl).2.2.2.1,
   (C6_exec_rejected "q" c6_source _ c6_er (.ok "s")
      (.call (.name "exec") (.cons (.strLit "x") .nil))
      rfl (List.mem_cons_self _ _) rfl).2.2.2.2.1⟩

/-! ## C4 -/

/-- The stringified wait exception of a representative deadline expiry
(the text comes from the HTTP client under the Docker SDK). -/
def timeoutMsg : String :=
  "UnixHTTPConnectionPool(host=localhost, port=None): Read timed out. (read timeout=300)"

/-- C4 counterexample: on a deadline expiry the result's `error` is the
stringified wait exception, not the literal `"timeout"`, and no exit code
is recorded (`metadata` stays `None`), contrary to the claimed
`error="timeout"`, `exitCode=-1`. -/
theorem C4_counterexample :
    (run_container (.started (.raised timeoutMsg) "") [] "abc12345" 7).1.error ≠
      some "timeout" ∧
    (run_container (.started (.raised timeoutMsg) "") [] "abc12345" 7).1.metadata = none :=
  ⟨by decide, rfl⟩

/-- C4 amended: when the container wait raises (deadline expiry), the
executor stops the container with a 5-second grace and force-removes it,
and returns `success = false` with empty stdout and outputs, `stderr` and
`error` both set to the exception's text, and no exit code recorded. -/
theorem C4_timeout_behavior (msg logs execution_id : String)
    (files : List (String × List Nat)) (elapsed : Nat) :
    run_container (.started (.raised msg) logs) files execution_id elapsed =
      ({ success := false, stdout := "", stderr := msg, outputs := [],
         execution_time := elapsed, error := some msg, metadata := none },
       [.stop 5, .removeForce]) := rfl

/-! ## C5 -/

/-- C5 counterexample: an `outputs/` holding only `metrics.json` with the
malformed content `"{"` (byte 123) makes the collection raise, so even a
zero-exit run yields `success = false` with an empty outputs map — the
file is not classified as a Text artifact and the execution result is not
unaffected. -/
theorem C5_counterexample :
    (run_container (.started (.completed (some 0)) "done")
        [("metrics.json", [123])] "id1" 2).1.success = false ∧
    (run_container (.started (.completed (some 0)) "done")
        [("metrics.json", [123])] "id1" 2).1.outputs = [] ∧
    (run_container (.started (.completed (some 0)) "done")
        [("metrics.json", [123])] "id1" 2).1.error = some "Expecting value" :=
  ⟨rfl, rfl, rfl⟩

theorem collect_error_of_bad_json (files : List (String × List Nat))
    (name : String) (content : List Nat)
    (hmem : (name, content) ∈ files)
    (hjson : pyEndsWith name ".json" = true)
    (hbad : ∃ er, jsonLoadFile content = .error er) :
    ∃ e, collectOutputs files = .error e := by
  induction files with
  | nil => cases hmem
  | cons hd tl ih =>
    rcases List.mem_cons.mp hmem with h | h
    · obtain ⟨er, her⟩ := hbad
      subst h
      refine ⟨er, ?_⟩
      simp only [collectOutputs, readOutputFile, hjson, if_true, her]
    · cases hr : readOutputFile hd.1 hd.2 with
      | error e =>
        refine ⟨e, ?_⟩
        obtain ⟨n, c⟩ := hd
        simp only [collectOutputs, hr]
      | ok v =>
        obtain ⟨e, he⟩ := ih h
        refine ⟨e, ?_⟩
        obtain ⟨n, c⟩ := hd
        simp only [collectOutputs, hr, he]

/-- C5 amended: a file in `outputs/` ending in `.json` whose content
fails `json.load` makes `_collect_outputs` raise; `_run_container`'s
exception handler then converts the whole run — even one that exited with
status 0 — into a failure `ExecutionResult` with an empty outputs map and
the exception text in `error`. -/
theorem C5_malformed_json_fails_run (files : List (String × List Nat))
    (name : String) (content : List Nat) (statusCode : Option Int)
    (logs execution_id : String) (elapsed : Nat)
    (hmem : (name, content) ∈ files)
    (hjson : pyEndsWith name ".json" = true)
    (hbad : ∃ er, jsonLoadFile content = .error er) :
    (run_container (.started (.completed statusCode) logs)
        files execution_id elapsed).1.success = false ∧
    (run_container (.started (.completed statusCode) logs)
        files execution_id elapsed).1.outputs = [] := by
  obtain ⟨e, he⟩ := collect_error_of_bad_json files name content hmem hjson hbad
  constructor <;> simp [run_container, he]

/-- Witness for the amended C5 at the concrete directory
`[("metrics.json", "{")]`. -/
theorem C5_witness :
    (run_container (.started (.completed (some 0)) "ok")
        [("metrics.json", [123])] "w" 1).1.success = false ∧
    (run_container (.started (.completed (some 0)) "ok")
        [("metrics.json", [123])] "w" 1).1.outputs = [] :=
  C5_malformed_json_fails_run [("metrics.json", [123])] "metrics.json" [123]
    (some 0) "ok" "w" 1 (List.mem_cons_self _ _) (by decide) ⟨_, rfl⟩

/-! ## C7 -/

/-- A benign generated program (empty module) for the C7 scenario. -/
def c7_source : PySource := { text := "", parsed := .ok [] }

/-- An execution that succeeded and wrote a zero-byte `insights.txt`. -/
def c7_er : ExecutionResult :=
  { success := true, stdout := "done", stderr := "", execution_time := 3,
    outputs := [("insights.txt", .str "")] }

/-- C7 counterexample: with a zero-byte `insights.txt` the pipeline puts
the LLM-generated summary into the result, not the empty file content;
the empty string is falsy, so `generate_insights` skips the file. -/
theorem C7_counterexample :
    (analyze "q" c7_source c7_er (.ok "Summary of results")).1.insights =
      .str "Summary of results" ∧
    "Summary of results" ≠ "" :=
  ⟨rfl, by decide⟩

/-- C7 amended: a zero-byte `insights.txt` is treated as absent by
`generate_insights` (Python truthiness), which therefore returns the
stripped LLM summary; the empty file content is used only by
`_extract_insights` — i.e. when no truthy summary was passed — where it is
still preferred over the default placeholder. -/
theorem C7_empty_insights_behavior (outputs : List (String × OutVal)) (t : String)
    (h : outputs.lookup "insights.txt" = some (.str "")) :
    generate_insights outputs (.ok t) = .str (pyStrip t) ∧
    extract_insights outputs = .str "" := by
  constructor
  · simp [generate_insights, h, truthy]
  · simp [extract_insights, h]

/-- Witness for the amended C7 at the singleton outputs map holding a
zero-byte `insights.txt`. -/
theorem C7_witness :
    generate_insights [("insights.txt", OutVal.str "")] (.ok "All good") =
      .str (pyStrip "All good") ∧
    extract_insights [("insights.txt", OutVal.str "")] = .str "" :=
  C7_empty_insights_behavior [("insights.txt", OutVal.str "")] "All good" rfl

/-! ## C8 -/

/-- A default `AnalysisResult` used with `List.getD`. -/
def dummyResult : AnalysisResult :=
  { success := false, query := "", insights := .str "", visualizations := [],
    metrics := .obj [], data_outputs := [], execution_time := 0 }

theorem getD_map_eq {α β : Type} (f : α → β) (l : List α) (i : Nat)
    (d : β) (d' : α) (h : i < l.length) :
    (l.map f).getD i d = f (l.getD i d') := by
  induction l generalizing i with
  | nil => exact absurd h (Nat.not_lt_zero i)
  | cons a t ih =>
    cases i with
    | zero => simp
    | succ n =>
      simp only [List.map_cons, List.getD_cons_succ]
      exact ih n (Nat.lt_of_succ_lt_succ h)

/-- C8: `batch_analyze` returns exactly one result per query, in input
order; the i-th result is the settled outcome of the i-th query alone — a
raised exception becomes a failure result at its own position and the
other positions depend only on their own query's outcome. -/
theorem C8_batch_order (queries : List String)
    (runOne : String → Except String AnalysisResult) (i : Nat)
    (h : i < queries.length) :
    (batch_analyze queries runOne).length = queries.length ∧
    (batch_analyze queries runOne).getD i dummyResult =
      settleOutcome (queries.getD i "") (runOne (queries.getD i "")) := by
  refine ⟨by simp [batch_analyze], ?_⟩
  exact getD_map_eq (fun q => settleOutcome q (runOne q)) queries i dummyResult "" h

/-- A batch oracle whose second query raises. -/
def c8_run (q : String) : Except String AnalysisResult :=
  if q = "bad-query" then .error "boom" else .ok dummyResult

/-- Witness for C8 on `["ok-query", "bad-query"]` where the second
analysis raises: two results, and position 1 is the converted failure. -/
theorem C8_witness :
    (batch_analyze ["ok-query", "bad-query"] c8_run).length = 2 ∧
    (batch_analyze ["ok-query", "bad-query"] c8_run).getD 1 dummyResult =
      settleOutcome "bad-query" (c8_run "bad-query") :=
  ⟨(C8_batch_order ["ok-query", "bad-query"] c8_run 1 (by decide)).1,
   (C8_batch_order ["ok-query", "bad-query"] c8_run 1 (by decide)).2⟩

/-! ## C9 -/

/-- C9 counterexample: after an unparseable frame (`"hi"`) the server
sends one error frame and the receive loop ends — the following
well-formed frame is never answered and no message is ever appended, so
the channel does not stay open for further inbound frames. -/
theorem C9_counterexample :
    (websocket_chat "e" "s1" [] 0
        [.text "hi", .text "\x7b\"message\": \"hello\"\x7d"]).2 = [.err "e"] ∧
    (websocket_chat "e" "s1" [] 0
        [.text "hi", .text "\x7b\"message\": \"hello\"\x7d"]).1 = [("s1", [])] :=
  ⟨rfl, rfl⟩

/-- C9 amended: an error while processing an inbound frame (here an
unparseable payload) makes the server emit one `type:"error"` frame and
then terminate the receive loop — later frames are not processed; a
peer-initiated close also ends the loop, gracefully and without any
outbound frame. -/
theorem C9_error_ends_loop (excText sid : String) (store : Store) (clock : Nat)
    (s : String) (rest : List InFrame) (h : jsonParse s = none) :
    websocket_chat excText sid store clock (.text s :: rest) =
      (sessionInit store sid, [.err excText]) ∧
    websocket_chat excText sid store clock (.disconnect :: rest) =
      (sessionInit store sid, []) := by
  constructor
  · simp only [websocket_chat, wsLoop, h]
  · rfl

/-- Witness for the amended C9 at the unparseable frame `"hi"`. -/
theorem C9_witness :
    websocket_chat "e" "w" [] 0 [.text "hi"] = ([("w", [])], [.err "e"]) ∧
    websocket_chat "e" "w" [] 0 [.disconnect] = ([("w", [])], []) :=
  ⟨(C9_error_ends_loop "e" "w" [] 0 "hi" [] rfl).1,
   (C9_error_ends_loop "e" "w" [] 0 "hi" [] rfl).2⟩

/-! ## C10 -/

theorem lookup_append_of_none (store : Store) (sid : String) (l : List Msg)
    (h : store.lookup sid = none) :
    (store ++ [(sid, l)]).lookup sid = some l := by
  induction store with
  | nil => simp [List.lookup]
  | cons hd tl ih =>
    rw [List.cons_append]
    unfold List.lookup at h ⊢
    cases hb : sid == hd.1 with
    | true => rw [hb] at h; exact Option.noConfusion h
    | false => rw [hb] at h; exact ih h

theorem lookup_none_key_ne (store : Store) (sid : String)
    (h : store.lookup sid = none) :
    ∀ kv ∈ store, kv.1 ≠ sid := by
  induction store with
  | nil => intro kv hkv; cases hkv
  | cons hd tl ih =>
    intro kv hkv
    unfold List.lookup at h
    cases hb : sid == hd.1 with
    | true => rw [hb] at h; exact Option.noConfusion h
    | false =>
      rw [hb] at h
      rcases List.mem_cons.mp hkv with he | he
      · subst he
        intro hq
        rw [hq] at hb
        simp at hb
      · exact ih h kv he

/-- C10: accepting a WebSocket connection for an unknown session id
creates that session with an empty message list even when the peer closes
without sending a frame; afterwards `GET /api/sessions/{id}` finds the
session (returning its empty message list rather than 404) while
`GET /api/sessions` omits it, because the listing skips sessions with
zero messages. -/
theorem C10_ws_creates_empty_session (excText sid : String) (store : Store)
    (clock : Nat) (h : store.lookup sid = none) :
    get_session_history (websocket_chat excText sid store clock [.disconnect]).1 sid =
      some [] ∧
    ∀ info ∈ get_sessions (websocket_chat excText sid store clock [.disconnect]).1,
      info.session_id ≠ sid := by
  have hstore : (websocket_chat excText sid store clock [.disconnect]).1 =
      store ++ [(sid, [])] := by
    simp [websocket_chat, wsLoop, sessionInit, h]
  rw [hstore]
  constructor
  · exact lookup_append_of_none store sid [] h
  · intro info hinfo
    rw [get_sessions, List.filterMap_append] at hinfo
    rcases List.mem_append.mp hinfo with hl | hl
    · obtain ⟨kv, hkv, hf⟩ := List.mem_filterMap.mp hl
      have hk := lookup_none_key_ne store sid h kv hkv
      obtain ⟨k, msgs⟩ := kv
      cases msgs with
      | nil => cases hf
      | cons m rest =>
        simp only at hf
        have hinfo2 := (Option.some.inj hf).symm
        rw [hinfo2]
        exact hk
    · obtain ⟨kv, hkv, hf⟩ := List.mem_filterMap.mp hl
      rcases List.mem_cons.mp hkv with he | he
      · subst he; cases hf
      · cases he

/-- Witness for C10 at the empty store and session id `"abc"`. -/
theorem C10_witness :
    get_session_history (websocket_chat "e" "abc" [] 0 [.disconnect]).1 "abc" =
      some [] ∧
    ∀ info ∈ get_sessions (websocket_chat "e" "abc" [] 0 [.disconnect]).1,
      info.session_id ≠ "abc" :=
  C10_ws_creates_empty_session "e" "abc" [] 0 rfl

end SmartAssistant
